import Mathlib

/-!
Verification of the rust-ud3tn AAP client library (archipel-network/rust-ud3tn).

This file gives a shallow embedding of the library's message codec
(`src/message.rs`), its session handshake and read loop (`src/lib.rs`) and its
configuration-bundle text encoder (`src/config.rs`), and proves properties of
those embeddings.

Modelling conventions:
- a Rust `u8` byte is a `Nat` (concrete inputs are below 256);
- a Rust `String` travelling on the wire is a `List Nat` of its UTF-8 bytes
  (a Rust `String` is always valid UTF-8 by construction, which appears as an
  explicit `utf8Valid` hypothesis where needed);
- fallible Rust code returns an explicit result type; a Rust panic (slice
  indexing out of range, `todo!`, `unwrap` failure) is a distinct `panicked`
  outcome, never silently identified with an error return.
-/

namespace Ud3tn

/-- Big-endian byte-list to natural number, as in `uN::from_be_bytes`. -/
def beBytesToNat (l : List Nat) : Nat :=
  l.foldl (fun acc b => acc * 256 + b) 0

/-- Bytes of `(n as u16).to_be_bytes()`: the length cast truncates to 16 bits. -/
def u16_be (n : Nat) : List Nat :=
  [(n % 65536) / 256, n % 256]

/-- Bytes of `(n as u64).to_be_bytes()`. The divisors are the powers 256^7 .. 256^1. -/
def u64_be (n : Nat) : List Nat :=
  [(n % 18446744073709551616) / 72057594037927936,
   (n % 18446744073709551616) / 281474976710656 % 256,
   (n % 18446744073709551616) / 1099511627776 % 256,
   (n % 18446744073709551616) / 4294967296 % 256,
   (n % 18446744073709551616) / 16777216 % 256,
   (n % 18446744073709551616) / 65536 % 256,
   (n % 18446744073709551616) / 256 % 256,
   n % 256]

/-- A UTF-8 continuation byte (`0x80 ..= 0xBF`). -/
def utf8Cont (b : Nat) : Bool :=
  128 ≤ b && b ≤ 191

/-- Validity of a byte sequence as UTF-8, as checked by `String::from_utf8`
(Rust standard library): the standard well-formed byte ranges, excluding
overlong encodings, surrogates and values above U+10FFFF. -/
def utf8Valid : List Nat → Bool
  | [] => true
  | b :: rest =>
    if b ≤ 0x7F then utf8Valid rest
    else if 0xC2 ≤ b && b ≤ 0xDF then
      match rest with
      | c1 :: r => utf8Cont c1 && utf8Valid r
      | [] => false
    else if b = 0xE0 then
      match rest with
      | c1 :: c2 :: r => (0xA0 ≤ c1 && c1 ≤ 0xBF) && utf8Cont c2 && utf8Valid r
      | _ => false
    else if (0xE1 ≤ b && b ≤ 0xEC) || b = 0xEE || b = 0xEF then
      match rest with
      | c1 :: c2 :: r => utf8Cont c1 && utf8Cont c2 && utf8Valid r
      | _ => false
    else if b = 0xED then
      match rest with
      | c1 :: c2 :: r => (0x80 ≤ c1 && c1 ≤ 0x9F) && utf8Cont c2 && utf8Valid r
      | _ => false
    else if b = 0xF0 then
      match rest with
      | c1 :: c2 :: c3 :: r =>
        (0x90 ≤ c1 && c1 ≤ 0xBF) && utf8Cont c2 && utf8Cont c3 && utf8Valid r
      | _ => false
    else if 0xF1 ≤ b && b ≤ 0xF3 then
      match rest with
      | c1 :: c2 :: c3 :: r =>
        utf8Cont c1 && utf8Cont c2 && utf8Cont c3 && utf8Valid r
      | _ => false
    else if b = 0xF4 then
      match rest with
      | c1 :: c2 :: c3 :: r =>
        (0x80 ≤ c1 && c1 ≤ 0x8F) && utf8Cont c2 && utf8Cont c3 && utf8Valid r
      | _ => false
    else false

/-- `BundleIdentifier(pub [u8;8])` from `src/message.rs`: the eight array cells
`self.0[0] .. self.0[7]` are the eight fields `b0 .. b7`. -/
structure BundleIdentifier where
  b0 : Nat
  b1 : Nat
  b2 : Nat
  b3 : Nat
  b4 : Nat
  b5 : Nat
  b6 : Nat
  b7 : Nat
deriving DecidableEq

/-- The identifier's eight bytes in order, as the array `self.0`. -/
def BundleIdentifier.toList (id : BundleIdentifier) : List Nat :=
  [id.b0, id.b1, id.b2, id.b3, id.b4, id.b5, id.b6, id.b7]

/-- `DtnTime(u64)` from `src/message.rs`: milliseconds relative to the DTN epoch. -/
structure DtnTime where
  millis : Nat
deriving DecidableEq

/-- `BundleIdentifier::is_v2_format`: `self.0[0] & 0b10000000 == 0b10000000`. -/
def BundleIdentifier.is_v2_format (id : BundleIdentifier) : Bool :=
  (id.b0 &&& 0b10000000) == 0b10000000

/-- `BundleIdentifier::contains_creation_time`:
`self.is_v2_format() && (self.0[0] & 0b010000000 == 0b010000000)`.
The source mask literal `0b010000000` has nine binary digits and so equals 128
(bit 7), the same bit `is_v2_format` tests, not 64 (bit 6). -/
def BundleIdentifier.contains_creation_time (id : BundleIdentifier) : Bool :=
  id.is_v2_format && ((id.b0 &&& 0b010000000) == 0b010000000)

/-- `BundleIdentifier::creation_time`: `u64::from_be_bytes([0, 0, b0 & 0b00111111,
b1, b2, b3, b4, b5])` when `contains_creation_time`, else `None`. -/
def BundleIdentifier.creation_time (id : BundleIdentifier) : Option DtnTime :=
  if !id.contains_creation_time then none
  else some ⟨beBytesToNat [0, 0, id.b0 &&& 0b00111111, id.b1, id.b2, id.b3, id.b4, id.b5]⟩

/-- `BundleIdentifier::sequence_number`: `None` when not v2; the 16-bit
big-endian value of bytes 6..7 when `contains_creation_time`; otherwise the
62-bit big-endian value of `b0 & 0b00111111` and bytes 1..7. -/
def BundleIdentifier.sequence_number (id : BundleIdentifier) : Option Nat :=
  if !id.is_v2_format then none
  else if id.contains_creation_time then
    some (beBytesToNat [id.b6, id.b7])
  else
    some (beBytesToNat
      [id.b0 &&& 0b00111111, id.b1, id.b2, id.b3, id.b4, id.b5, id.b6, id.b7])

/-- `impl From<DtnTime> for SystemTime` in `src/message.rs`:
`SystemTime::UNIX_EPOCH + Duration::from_secs(946681200) + Duration::from_millis(value.0)`.
A `SystemTime` is modelled as milliseconds since `UNIX_EPOCH`.
(The `chrono::NaiveDateTime` conversion in the same file uses the same
946681200-second constant.) -/
def DtnTime.as_system_time (t : DtnTime) : Nat :=
  946681200 * 1000 + t.millis

/-- The `Message` enum of `src/message.rs`. String fields carry the UTF-8 bytes
of the Rust `String`; `Cow` payloads are owned byte lists. -/
inductive Message where
  | Ack
  | Nack
  | Register (agent_id : List Nat)
  | Welcome (node_eid : List Nat)
  | SendBundle (destination_eid : List Nat) (payload : List Nat)
  | RecvBundle (source_eid : List Nat) (payload : List Nat)
  | SendConfirm (bundle_id : BundleIdentifier)
  | CancelBundle (bundle_id : BundleIdentifier)
  | Ping
  | SendBIBE (eid : List Nat) (payload : List Nat)
  | RecvBIBE (eid : List Nat) (payload : List Nat)
deriving DecidableEq

/-- Helper `append_string` of `src/message.rs`: 16-bit big-endian length then
the string bytes (the length is `str.len() as u16`, truncating). -/
def append_string (target : List Nat) (s : List Nat) : List Nat :=
  target ++ u16_be s.length ++ s

/-- Helper `append_bytes` of `src/message.rs`: 64-bit big-endian length then
the raw bytes. -/
def append_bytes (target : List Nat) (bs : List Nat) : List Nat :=
  target ++ u64_be bs.length ++ bs

/-- `Message::to_bytes`: header byte `0x1 << 4 | type`, then the body. The two
BIBE variants hit `todo!` (a panic), modelled as `none`. -/
def Message.to_bytes : Message → Option (List Nat)
  | .Ack => some [0x10 ||| 0x0]
  | .Nack => some [0x10 ||| 0x1]
  | .Register agent_id => some (append_string [0x10 ||| 0x2] agent_id)
  | .SendBundle dest payload => some (append_bytes (append_string [0x10 ||| 0x3] dest) payload)
  | .RecvBundle src payload => some (append_bytes (append_string [0x10 ||| 0x4] src) payload)
  | .SendConfirm id => some ([0x10 ||| 0x5] ++ id.toList)
  | .CancelBundle id => some ([0x10 ||| 0x6] ++ id.toList)
  | .Welcome eid => some (append_string [0x10 ||| 0x7] eid)
  | .Ping => some [0x10 ||| 0x8]
  | .SendBIBE _ _ => none
  | .RecvBIBE _ _ => none

/-- The `ParseError` enum of `src/message.rs`. `Utf8Error` carries a
`FromUtf8Error` in the source; its payload plays no role here. -/
inductive ParseError where
  | VersionNotSupported
  | UnknownType (t : Nat)
  | UnexpectedEnd
  | Utf8Error
deriving DecidableEq

/-- Outcome of running fallible Rust code: a value, an early `Err` return, or a
panic (out-of-range slice indexing, `todo!`, failing `unwrap`). -/
inductive PResult (α : Type) where
  | ok (val : α)
  | err (e : ParseError)
  | panicked
deriving DecidableEq

/-- Sequencing for `PResult`, as `?` propagation plus panic propagation. -/
def PResult.bind {α β : Type} : PResult α → (α → PResult β) → PResult β
  | .ok a, f => f a
  | .err e, _ => .err e
  | .panicked, _ => .panicked

/-- Rust slice indexing `bytes[a..b]`: the slice when the range is in bounds,
otherwise a panic (never an `Err`: the `From<TryFromSliceError>` conversion in
the source is unreachable from a range that already indexed successfully). -/
def sliceIdx (bytes : List Nat) (a b : Nat) : PResult (List Nat) :=
  if a ≤ b ∧ b ≤ bytes.length then .ok ((bytes.drop a).take (b - a)) else .panicked

/-- `u16::from_be_bytes(bytes[offset..offset+2].try_into()?)`. -/
def readU16 (bytes : List Nat) (offset : Nat) : PResult Nat :=
  (sliceIdx bytes offset (offset + 2)).bind fun s => .ok (beBytesToNat s)

/-- `u64::from_be_bytes(bytes[offset..offset+8].try_into()?)`. -/
def readU64 (bytes : List Nat) (offset : Nat) : PResult Nat :=
  (sliceIdx bytes offset (offset + 8)).bind fun s => .ok (beBytesToNat s)

/-- `String::from_utf8(bytes[offset..offset+len].into())?`. -/
def readEid (bytes : List Nat) (offset len : Nat) : PResult (List Nat) :=
  (sliceIdx bytes offset (offset + len)).bind fun s =>
    if utf8Valid s then .ok s else .err .Utf8Error

/-- `let bundle_id : [u8;8] = bytes[offset..offset+8].try_into()?`. -/
def readBundleId (bytes : List Nat) (offset : Nat) : PResult BundleIdentifier :=
  (sliceIdx bytes offset (offset + 8)).bind fun s =>
    .ok ⟨s.getD 0 0, s.getD 1 0, s.getD 2 0, s.getD 3 0,
         s.getD 4 0, s.getD 5 0, s.getD 6 0, s.getD 7 0⟩

/-- `Message::parse_buffer` from `src/message.rs`. The initial `bytes[0]` read
panics on an empty buffer. The running `offset` of the source is inlined:
1 after the header, 3 after a 16-bit length, and so on. The source's `match`
on the type nibble is rendered as an `if` chain with the same arms, including
the explicit reserved arms for `0x9` and `0xA`. -/
def Message.parse_buffer (bytes : List Nat) : PResult (Message × Nat) :=
  match bytes with
  | [] => .panicked
  | b0 :: _ =>
    let version := (b0 &&& 0b11110000) >>> 4
    if version ≠ 0x1 then .err .VersionNotSupported
    else
      let message_type := b0 &&& 0b00001111
      if message_type = 0x0 then .ok (.Ack, 1)
      else if message_type = 0x1 then .ok (.Nack, 1)
      else if message_type = 0x2 then
        (readU16 bytes 1).bind fun eid_length =>
        (readEid bytes 3 eid_length).bind fun eid =>
        .ok (.Register eid, 3 + eid_length)
      else if message_type = 0x3 then
        (readU16 bytes 1).bind fun eid_length =>
        (readEid bytes 3 eid_length).bind fun dest_eid =>
        (readU64 bytes (3 + eid_length)).bind fun payload_length =>
        if bytes.length < 3 + eid_length + 8 + payload_length then .err .UnexpectedEnd
        else .ok (.SendBundle dest_eid ((bytes.drop (3 + eid_length + 8)).take payload_length),
                  3 + eid_length + 8 + payload_length)
      else if message_type = 0x4 then
        (readU16 bytes 1).bind fun eid_length =>
        (readEid bytes 3 eid_length).bind fun source_eid =>
        (readU64 bytes (3 + eid_length)).bind fun payload_length =>
        if bytes.length < 3 + eid_length + 8 + payload_length then .err .UnexpectedEnd
        else .ok (.RecvBundle source_eid ((bytes.drop (3 + eid_length + 8)).take payload_length),
                  3 + eid_length + 8 + payload_length)
      else if message_type = 0x5 then
        (readBundleId bytes 1).bind fun id => .ok (.SendConfirm id, 9)
      else if message_type = 0x6 then
        (readBundleId bytes 1).bind fun id => .ok (.CancelBundle id, 9)
      else if message_type = 0x7 then
        (readU16 bytes 1).bind fun eid_length =>
        (readEid bytes 3 eid_length).bind fun eid =>
        .ok (.Welcome eid, 3 + eid_length)
      else if message_type = 0x8 then .ok (.Ping, 1)
      else if message_type = 0x9 then .err (.UnknownType 0x9)
      else if message_type = 0xA then .err (.UnknownType 0xA)
      else .err (.UnknownType message_type)

/-- Outcome of one iteration of the `Agent::recv_from` loop body in
`src/lib.rs` on a nonempty buffer obtained from `fill_buf`. -/
inductive RecvStep where
  | ret (m : Message) (consumed : Nat)
  | malformed (e : ParseError) (consumed : Nat)
  | retry
  | panicked
deriving DecidableEq

/-- One iteration of the read loop of `Agent::recv_from` (`src/lib.rs`): parse
the buffered bytes; on success consume exactly the parsed length and return the
message; on `VersionNotSupported` or `UnknownType` consume the whole buffer and
surface `Error::MalformedMessage`; on every other parse error (the `_ => {}`
arm) fall through and loop again with nothing consumed. An empty buffer also
loops. -/
def recv_step (buffer : List Nat) : RecvStep :=
  if buffer.length > 0 then
    match Message.parse_buffer buffer with
    | .ok (m, bytes_red) => .ret m bytes_red
    | .err e =>
      match e with
      | .VersionNotSupported => .malformed .VersionNotSupported buffer.length
      | .UnknownType t => .malformed (.UnknownType t) buffer.length
      | _ => .retry
    | .panicked => .panicked
  else .retry

/-- The error enum of `src/lib.rs`, restricted to the variants reachable in the
message-level session model (`IOError` and `NoMessage` arise only from the raw
byte stream). -/
inductive AgentError where
  | UnexpectedMessage
  | FailedOperation
deriving DecidableEq

/-- The `Agent` struct of `src/lib.rs`, without the stream handle. -/
structure Agent where
  agent_id : List Nat
  node_eid : List Nat
deriving DecidableEq

/-- Result of `Agent::connect_stream` on a stream: a connected agent, an error
return, or blocking forever waiting for a message that never arrives. -/
inductive ConnectOutcome where
  | ok (a : Agent)
  | err (e : AgentError)
  | blocked
deriving DecidableEq

/-- `Agent::connect_stream` (`src/lib.rs`), modelled at message granularity:
`incoming` is the sequence of messages the stream delivers, the second
component of the result is the list of messages the function writes. The
source receives one message; on `Welcome(node_eid)` it calls
`send_message_to(Register(agent_id))`, which writes the `Register` and then
receives the reply: `Ack` yields the connected agent, `Nack` yields
`Error::FailedOperation`, anything else `Error::UnexpectedMessage`. A first
message other than `Welcome` yields `Error::UnexpectedMessage` with nothing
written. -/
def connect_stream (incoming : List Message) (agent_id : List Nat) :
    ConnectOutcome × List Message :=
  match incoming with
  | [] => (.blocked, [])
  | first :: rest =>
    match first with
    | .Welcome node_eid =>
      match rest with
      | [] => (.blocked, [.Register agent_id])
      | reply :: _ =>
        match reply with
        | .Ack => (.ok ⟨agent_id, node_eid⟩, [.Register agent_id])
        | .Nack => (.err .FailedOperation, [.Register agent_id])
        | _ => (.err .UnexpectedMessage, [.Register agent_id])
    | _ => (.err .UnexpectedMessage, [])

/-- `dtn_timestamp` from `src/config.rs`:
`time.duration_since(UNIX_EPOCH + Duration::from_secs(946684800)).unwrap().as_secs()`.
A `SystemTime` is modelled as whole seconds since `UNIX_EPOCH`; the `unwrap`
panics (modelled as `none`) for times before the DTN epoch. -/
def dtn_timestamp (time : Nat) : Option Nat :=
  if 946684800 ≤ time then some (time - 946684800) else none

/-- The `ContactDataRate` enum of `src/config.rs`. -/
inductive ContactDataRate where
  | Unlimited
  | Limited (i : Int)

/-- The `Contact` struct of `src/config.rs`; times are whole seconds since
`UNIX_EPOCH`. The `end` field is `end_` (`end` is reserved in Lean). -/
structure Contact where
  start : Nat
  end_ : Nat
  data_rate : ContactDataRate

/-- The `AddContact` struct of `src/config.rs`. -/
structure AddContact where
  eid : String
  reliability : Option Int
  cla_address : String
  reaches_eid : List String
  contacts : List Contact

/-- The `ReplaceContact` struct of `src/config.rs` (`cla_address` optional). -/
structure ReplaceContact where
  eid : String
  reliability : Option Int
  cla_address : Option String
  reaches_eid : List String
  contacts : List Contact

/-- The `ConfigBundle` enum of `src/config.rs`. -/
inductive ConfigBundle where
  | AddContact (conf : AddContact)
  | ReplaceContact (conf : ReplaceContact)
  | DeleteContact (eid : String)

/-- Rendering of one contact window inside `ConfigBundle::to_string`:
`format!("{{{},{},{}}}", dtn_timestamp(start), dtn_timestamp(end), rate)`,
where an unlimited rate prints the literal `4_294_967_200_i64`. `none`
propagates a panicking `dtn_timestamp`. -/
def renderContact (c : Contact) : Option String := do
  let s ← dtn_timestamp c.start
  let e ← dtn_timestamp c.end_
  pure ("\x7b" ++ toString s ++ ("," ++ toString e) ++ ("," ++
    (match c.data_rate with
     | .Limited i => toString i
     | .Unlimited => toString (4294967200 : Int))) ++ "\x7d")

/-- The reliability segment: `",{r}"` when present, empty when absent. -/
def renderReliability : Option Int → String
  | some r => "," ++ toString r
  | none => ""

/-- The reach-list segment: `":[({e1}),({e2})...]"` when nonempty, `":"` when
empty, as in the source's branch on `reaches_eid.len() > 0`. -/
def renderReaches (reaches : List String) : String :=
  if reaches.length > 0 then
    ":" ++ ("[" ++ String.intercalate ("," ) (reaches.map (fun it => "(" ++ it ++ ")")) ++ "]")
  else ":"

/-- The contact-list segment: `":[{c1},{c2}...]"` when nonempty, nothing when
empty, as in the source's branch on `contacts.len() > 0`. -/
def renderContacts (contacts : List Contact) : Option String :=
  if contacts.length > 0 then do
    let cs ← contacts.mapM renderContact
    pure (":[" ++ String.intercalate ("," ) cs ++ "]")
  else some ""

/-- `ConfigBundle::to_string` from `src/config.rs`. Every branch appends the
final `";"` to its body (`result + ";"` in the source); `none` is a panicking
`dtn_timestamp` inside a contact window. -/
def ConfigBundle.to_string : ConfigBundle → Option String
  | .AddContact conf => do
    let cs ← renderContacts conf.contacts
    pure ("1(" ++ conf.eid ++ ")" ++ renderReliability conf.reliability ++
      (":(" ++ conf.cla_address ++ ")") ++ renderReaches conf.reaches_eid ++ cs ++ ";")
  | .ReplaceContact conf => do
    let cs ← renderContacts conf.contacts
    pure ("2(" ++ conf.eid ++ ")" ++ renderReliability conf.reliability ++
      (match conf.cla_address with
       | some cla => ":(" ++ cla ++ ")"
       | none => ":") ++ renderReaches conf.reaches_eid ++ cs ++ ";")
  | .DeleteContact eid => some ("3(" ++ eid ++ ")" ++ ";")

/-- Constructible `Message` values on which `to_bytes` is total and faithful:
not a BIBE variant (those hit `todo!`), every wire string valid UTF-8 (true of
every Rust `String` by construction) and at most 65535 bytes long (the length
prefix is a truncating `as u16` cast), every payload shorter than 2^64 (a Rust
`Vec` cannot outgrow `usize`). -/
def Message.wf : Message → Bool
  | .Register s => utf8Valid s && decide (s.length ≤ 65535)
  | .Welcome s => utf8Valid s && decide (s.length ≤ 65535)
  | .SendBundle e p =>
    utf8Valid e && decide (e.length ≤ 65535) && decide (p.length < 18446744073709551616)
  | .RecvBundle e p =>
    utf8Valid e && decide (e.length ≤ 65535) && decide (p.length < 18446744073709551616)
  | .SendBIBE _ _ => false
  | .RecvBIBE _ _ => false
  | _ => true

example : ConfigBundle.to_string (.DeleteContact ("dtn://ud3tn2.dtn/")) =
    some ("3(dtn://ud3tn2.dtn/);") := by rfl

example : ConfigBundle.to_string (.AddContact
    ⟨"dtn://13714/", some 333, "tcpspp:", ["dtn://18471/", "dtn://81491/"], []⟩) =
    some ("1(dtn://13714/),333:(tcpspp:):[(dtn://18471/),(dtn://81491/)];") := by rfl

example : ConfigBundle.to_string (.AddContact
    ⟨"dtn://ud3tn2.dtn/", none, "mtcp:127.0.0.1:4223", [],
     [⟨1689456940, 1689457000, .Limited 1200⟩, ⟨1689457060, 1689457120, .Limited 1200⟩]⟩) =
    some ("1(dtn://ud3tn2.dtn/):(mtcp:127.0.0.1:4223)::[\x7b742772140,742772200,1200\x7d,\x7b742772260,742772320,1200\x7d];") := by rfl

example : ConfigBundle.to_string (.ReplaceContact
    ⟨"dtn://ud3tn2.dtn/", none, some ("mtcp:127.0.0.1:4223"),
     ["dtn://89326/", "dtn://12349/"], []⟩) =
    some ("2(dtn://ud3tn2.dtn/):(mtcp:127.0.0.1:4223):[(dtn://89326/),(dtn://12349/)];") := by rfl

example : Message.to_bytes .Ack = some [0b00010000] := by decide
example : Message.parse_buffer [0b00010000] = .ok (.Ack, 1) := by decide
example : Message.to_bytes (.Register [114, 117, 115, 116, 95, 116, 101, 115, 116]) =
    some [0b00010010, 0, 9, 114, 117, 115, 116, 95, 116, 101, 115, 116] := by decide
example : Message.parse_buffer [0b00010010, 0, 9, 114, 117, 115, 116, 95, 116, 101, 115, 116] =
    .ok (.Register [114, 117, 115, 116, 95, 116, 101, 115, 116], 12) := by decide
example : Message.parse_buffer [0b00010101, 0, 0, 0, 0, 0b00101011, 0b11010110, 0b01100001, 0b01000111] =
    .ok (.SendConfirm ⟨0, 0, 0, 0, 0b00101011, 0b11010110, 0b01100001, 0b01000111⟩, 9) := by decide
example : Message.parse_buffer [0b00011000] = .ok (.Ping, 1) := by decide

@[simp]
theorem length_u16_be (n : Nat) : (u16_be n).length = 2 := rfl

@[simp]
theorem length_u64_be (n : Nat) : (u64_be n).length = 8 := rfl

@[simp]
theorem PResult.bind_ok {α β : Type} (x : α) (f : α → PResult β) :
    (PResult.ok x).bind f = f x := rfl

theorem sliceIdx_exact (pre s post : List Nat) :
    sliceIdx (pre ++ (s ++ post)) pre.length (pre.length + s.length) = .ok s := by
  unfold sliceIdx
  rw [if_pos]
  · rw [Nat.add_sub_cancel_left, List.drop_left, List.take_left]
  · refine ⟨Nat.le_add_right _ _, ?_⟩
    simp [List.length_append]

theorem beBytesToNat_u16_be (n : Nat) : beBytesToNat (u16_be n) = n % 65536 := by
  simp [beBytesToNat, u16_be]
  omega

theorem beBytesToNat_u64_be (n : Nat) :
    beBytesToNat (u64_be n) = n % 18446744073709551616 := by
  simp [beBytesToNat, u64_be]
  omega

theorem readU16_at (pre : List Nat) (n : Nat) (post : List Nat) :
    readU16 (pre ++ (u16_be n ++ post)) pre.length = .ok (n % 65536) := by
  have h2 : pre.length + 2 = pre.length + (u16_be n).length := by simp
  rw [readU16, h2, sliceIdx_exact, PResult.bind_ok, beBytesToNat_u16_be]

theorem readU64_at (pre : List Nat) (n : Nat) (post : List Nat) :
    readU64 (pre ++ (u64_be n ++ post)) pre.length = .ok (n % 18446744073709551616) := by
  have h8 : pre.length + 8 = pre.length + (u64_be n).length := by simp
  rw [readU64, h8, sliceIdx_exact, PResult.bind_ok, beBytesToNat_u64_be]

theorem readEid_at (pre s post : List Nat) (hu : utf8Valid s = true) :
    readEid (pre ++ (s ++ post)) pre.length s.length = .ok s := by
  rw [readEid, sliceIdx_exact, PResult.bind_ok, if_pos hu]

theorem readBundleId_at (pre : List Nat) (id : BundleIdentifier) (post : List Nat) :
    readBundleId (pre ++ (id.toList ++ post)) pre.length = .ok id := by
  have h8 : pre.length + 8 = pre.length + id.toList.length := by
    simp [BundleIdentifier.toList]
  rw [readBundleId, h8, sliceIdx_exact, PResult.bind_ok]
  cases id
  simp [BundleIdentifier.toList]

/-- C2: the claim says `parse_buffer` never panics and answers `UnexpectedEnd`
on every truncated message prefix. The code panics instead: on the empty
buffer (`bytes[0]`), inside a length prefix, inside a text field, and inside
an 8-byte identifier, the out-of-range slice index aborts before the
`TryFromSliceError -> UnexpectedEnd` conversion can ever run. -/
theorem C2_parse_buffer_panics_on_truncated_prefixes :
    Message.parse_buffer [] = .panicked ∧
    Message.parse_buffer [0x12] = .panicked ∧
    Message.parse_buffer [0x12, 0, 2, 97] = .panicked ∧
    Message.parse_buffer [0x15, 0, 0, 0] = .panicked ∧
    Message.parse_buffer [0x13, 0, 1, 97, 0, 0] = .panicked := by decide

/-- C3 counterexample: on the legacy identifier with bytes
`00 00 00 00 00 00 00 05` (high bit of byte 0 clear), `sequence_number()` does
not return the plain 64-bit big-endian integer 5 — it returns `None`. -/
theorem C3_legacy_sequence_number_cex :
    BundleIdentifier.sequence_number ⟨0, 0, 0, 0, 0, 0, 0, 5⟩ ≠
      some (beBytesToNat [0, 0, 0, 0, 0, 0, 0, 5]) := by decide

/-- C3 amended: for every legacy identifier (high bit of byte 0 clear) both
`sequence_number()` and `creation_time()` return `None`. -/
theorem C3_legacy_id_accessors (id : BundleIdentifier) (h : id.b0 &&& 128 = 0) :
    id.sequence_number = none ∧ id.creation_time = none := by
  have hv : id.is_v2_format = false := by
    simp [BundleIdentifier.is_v2_format, h]
  have hc : id.contains_creation_time = false := by
    simp [BundleIdentifier.contains_creation_time, hv]
  exact ⟨by simp [BundleIdentifier.sequence_number, hv],
         by simp [BundleIdentifier.creation_time, hc]⟩

theorem C3_legacy_id_accessors_witness :
    BundleIdentifier.sequence_number ⟨1, 2, 3, 4, 5, 6, 7, 8⟩ = none ∧
    BundleIdentifier.creation_time ⟨1, 2, 3, 4, 5, 6, 7, 8⟩ = none :=
  C3_legacy_id_accessors ⟨1, 2, 3, 4, 5, 6, 7, 8⟩ (by decide)

/-- C4: the claim says `creation_time()` returns a value exactly when the high
bit (0x80) and the embedded-time flag (0x40) of byte 0 are both set. In the
code the nine-digit mask literal `0b010000000` equals 128, so the second test
repeats the high-bit test: on bytes `80 00 00 00 00 07 00 01` (0x40 clear) the
code still returns a creation time, and the 62-bit sequence branch is dead. -/
theorem C4_creation_time_ignores_time_flag :
    (128 &&& 64 : Nat) = 0 ∧
    BundleIdentifier.contains_creation_time ⟨128, 0, 0, 0, 0, 7, 0, 1⟩ = true ∧
    BundleIdentifier.creation_time ⟨128, 0, 0, 0, 0, 7, 0, 1⟩ = some ⟨7⟩ ∧
    BundleIdentifier.sequence_number ⟨128, 0, 0, 0, 0, 7, 0, 1⟩ = some 1 := by decide

/-- C6: the claim says every fatal parse error (version mismatch, unknown
type, invalid UTF-8) is surfaced by the read loop after discarding the buffer.
The code surfaces the first two but the `_ => {}` arm silently swallows
`Utf8Error` and retries the identical bytes forever. Buffer
`12 00 01 FF` (Register, one-byte field `FF`) is a reachable `Utf8Error`. -/
theorem C6_utf8_error_swallowed_by_read_loop :
    Message.parse_buffer [0x12, 0, 1, 0xFF] = .err .Utf8Error ∧
    recv_step [0x12, 0, 1, 0xFF] = .retry ∧
    recv_step [0x05] = .malformed .VersionNotSupported 1 ∧
    recv_step [0x19, 1, 2] = .malformed (.UnknownType 9) 3 := by decide

/-- C7: the claim says the DTN epoch sits exactly 946,684,800 seconds after
the Unix epoch. The conversion in `src/message.rs` adds 946,681,200 seconds
(one hour short, contradicting its own comment and the 946,684,800 constant
used by `src/config.rs`). -/
theorem C7_dtn_epoch_offset_constant :
    DtnTime.as_system_time ⟨0⟩ = 946681200 * 1000 ∧
    DtnTime.as_system_time ⟨0⟩ ≠ 946684800 * 1000 ∧
    (946684800 - 946681200 : Nat) = 3600 ∧
    dtn_timestamp 946684800 = some 0 := by decide

/-- C9: every buffer whose first byte has version nibble 1 and a type nibble
outside 0..8 is rejected with the fatal `UnknownType` error carrying that type
value — never `UnexpectedEnd`, whatever the rest of the buffer is. -/
theorem C9_unknown_type_fatal (b0 : Nat) (rest : List Nat)
    (hv : b0 &&& 0b11110000 = 0b00010000) (ht : 9 ≤ b0 &&& 0b00001111) :
    Message.parse_buffer (b0 :: rest) = .err (.UnknownType (b0 &&& 0b00001111)) := by
  have h0 : ¬ (b0 &&& 0b00001111 = 0x0) := by omega
  have h1 : ¬ (b0 &&& 0b00001111 = 0x1) := by omega
  have h2 : ¬ (b0 &&& 0b00001111 = 0x2) := by omega
  have h3 : ¬ (b0 &&& 0b00001111 = 0x3) := by omega
  have h4 : ¬ (b0 &&& 0b00001111 = 0x4) := by omega
  have h5 : ¬ (b0 &&& 0b00001111 = 0x5) := by omega
  have h6 : ¬ (b0 &&& 0b00001111 = 0x6) := by omega
  have h7 : ¬ (b0 &&& 0b00001111 = 0x7) := by omega
  have h8 : ¬ (b0 &&& 0b00001111 = 0x8) := by omega
  by_cases h9 : b0 &&& 0b00001111 = 0x9
  · simp [Message.parse_buffer, hv, h0, h1, h2, h3, h4, h5, h6, h7, h8, h9]
  · by_cases h10 : b0 &&& 0b00001111 = 0xA
    · simp [Message.parse_buffer, hv, h0, h1, h2, h3, h4, h5, h6, h7, h8, h9, h10]
    · simp [Message.parse_buffer, hv, h0, h1, h2, h3, h4, h5, h6, h7, h8, h9, h10]

theorem C9_unknown_type_fatal_witness :
    Message.parse_buffer [0x19, 7] = .err (.UnknownType (0x19 &&& 0b00001111)) :=
  C9_unknown_type_fatal 0x19 [7] (by decide) (by decide)

/-- C5 counterexample: a stream whose first message is `Welcome` need not
yield a session — with incoming `Welcome "a"` then `Nack` the connect fails
with `FailedOperation`, so the claim's unconditional "returns a session whose
node_eid equals eid" is false. -/
theorem C5_welcome_then_nack_cex :
    connect_stream [.Welcome [97], .Nack] [98] =
      (.err .FailedOperation, [.Register [98]]) ∧
    ∀ a : Agent, (connect_stream [.Welcome [97], .Nack] [98]).1 ≠ .ok a := by
  refine ⟨rfl, fun a h => ?_⟩
  simp [connect_stream] at h

/-- C5 amended: when the first decoded message is `Welcome(eid)` and
`connect_stream` does return a session, that session's `node_eid` is `eid`
(and its `agent_id` is the requested one); when the first decoded message is
anything other than `Welcome`, it fails with `UnexpectedMessage` and writes
nothing to the stream. -/
theorem C5_handshake (first : Message) (rest : List Message) (aid : List Nat) :
    (∀ eid a w, first = .Welcome eid →
        connect_stream (first :: rest) aid = (.ok a, w) →
        a.node_eid = eid ∧ a.agent_id = aid) ∧
    ((∀ eid, first ≠ .Welcome eid) →
        connect_stream (first :: rest) aid = (.err .UnexpectedMessage, [])) := by
  constructor
  · rintro eid a w rfl hc
    cases rest with
    | nil => simp [connect_stream] at hc
    | cons reply rest2 =>
      cases reply <;> simp [connect_stream] at hc
      simp [← hc.1]
  · intro hne
    cases first with
    | Welcome eid => exact absurd rfl (hne eid)
    | Ack => rfl
    | Nack => rfl
    | Register a => rfl
    | SendBundle a b => rfl
    | RecvBundle a b => rfl
    | SendConfirm i => rfl
    | CancelBundle i => rfl
    | Ping => rfl
    | SendBIBE a b => rfl
    | RecvBIBE a b => rfl

theorem C5_handshake_witness :
    (Agent.mk [98] [97]).node_eid = [97] ∧ (Agent.mk [98] [97]).agent_id = [98] :=
  (C5_handshake (.Welcome [97]) [.Ack] [98]).1 [97] ⟨[98], [97]⟩ [.Register [98]] rfl rfl

/-- C10: after a first `Welcome(eid)`, `connect_stream` always writes exactly
the `Register(agent_id)` message and blocks for the reply: no reply blocks
forever, `Ack` yields the registered agent, `Nack` fails with
`FailedOperation`, and any other reply fails with `UnexpectedMessage`. -/
theorem C10_register_after_welcome (eid : List Nat) (rest : List Message) (aid : List Nat) :
    (connect_stream (.Welcome eid :: rest) aid).2 = [.Register aid] ∧
    (rest = [] → (connect_stream (.Welcome eid :: rest) aid).1 = .blocked) ∧
    ∀ reply rest2, rest = reply :: rest2 →
      ((reply = .Ack → (connect_stream (.Welcome eid :: rest) aid).1 = .ok ⟨aid, eid⟩) ∧
       (reply = .Nack →
         (connect_stream (.Welcome eid :: rest) aid).1 = .err .FailedOperation) ∧
       (reply ≠ .Ack → reply ≠ .Nack →
         (connect_stream (.Welcome eid :: rest) aid).1 = .err .UnexpectedMessage)) := by
  refine ⟨?_, ?_, ?_⟩
  · cases rest with
    | nil => rfl
    | cons reply rest2 => cases reply <;> rfl
  · rintro rfl; rfl
  · rintro reply rest2 rfl
    refine ⟨?_, ?_, ?_⟩
    · rintro rfl; rfl
    · rintro rfl; rfl
    · intro hA hN
      cases reply with
      | Ack => exact absurd rfl hA
      | Nack => exact absurd rfl hN
      | Welcome e => rfl
      | Register a => rfl
      | SendBundle a b => rfl
      | RecvBundle a b => rfl
      | SendConfirm i => rfl
      | CancelBundle i => rfl
      | Ping => rfl
      | SendBIBE a b => rfl
      | RecvBIBE a b => rfl

theorem C10_register_after_welcome_witness :
    (connect_stream [.Welcome [97], .Nack] [98]).2 = [.Register [98]] ∧
    (connect_stream [.Welcome [97], .Nack] [98]).1 = .err .FailedOperation := by
  have h := C10_register_after_welcome [97] [.Nack] [98]
  exact ⟨h.1, (h.2.2 .Nack [] rfl).2.1 rfl⟩

/-- C8: the concrete `AddContact` bundle of the claim encodes to exactly the
expected string, with contact bounds rendered as Unix seconds minus
946,684,800; an unlimited rate renders as the literal 4294967200; and every
config bundle the encoder produces ends with the `;` character. -/
theorem C8_config_encoding :
    ConfigBundle.to_string (.AddContact
        ⟨"dtn://ud3tn2.dtn/", none, "mtcp:127.0.0.1:4223", [],
         [⟨1689456940, 1689457000, .Limited 1200⟩]⟩) =
      some ("1(dtn://ud3tn2.dtn/):(mtcp:127.0.0.1:4223)::[\x7b742772140,742772200,1200\x7d];") ∧
    dtn_timestamp 1689456940 = some (1689456940 - 946684800) ∧
    renderContact ⟨1689456940, 1689457000, .Unlimited⟩ =
      some ("\x7b742772140,742772200,4294967200\x7d") ∧
    ∀ c s, ConfigBundle.to_string c = some s → ∃ r, s = r ++ ";" := by
  refine ⟨rfl, rfl, rfl, ?_⟩
  intro c s h
  cases c with
  | AddContact conf =>
    cases hcs : renderContacts conf.contacts with
    | none => simp [ConfigBundle.to_string, hcs] at h
    | some cs =>
      simp [ConfigBundle.to_string, hcs] at h
      exact ⟨_, h.symm⟩
  | ReplaceContact conf =>
    cases hcs : renderContacts conf.contacts with
    | none => simp [ConfigBundle.to_string, hcs] at h
    | some cs =>
      simp [ConfigBundle.to_string, hcs] at h
      exact ⟨_, h.symm⟩
  | DeleteContact eid =>
    simp [ConfigBundle.to_string] at h
    exact ⟨_, h.symm⟩

theorem C8_config_encoding_witness :
    ∃ r, ("3(x);" : String) = r ++ ";" :=
  C8_config_encoding.2.2.2 (.DeleteContact ("x")) ("3(x);") rfl

theorem readU16_header (b n : Nat) (post : List Nat) :
    readU16 (b :: (u16_be n ++ post)) 1 = .ok (n % 65536) := by
  simpa using readU16_at [b] n post

theorem readEid_header (b n : Nat) (s post : List Nat) (hu : utf8Valid s = true) :
    readEid (b :: (u16_be n ++ (s ++ post))) 3 s.length = .ok s := by
  have h := readEid_at ([b] ++ u16_be n) s post hu
  simpa [List.append_assoc] using h

theorem readU64_mid (b n plen : Nat) (s p : List Nat) :
    readU64 (b :: (u16_be n ++ (s ++ (u64_be plen ++ p)))) (3 + s.length) =
      .ok (plen % 18446744073709551616) := by
  have key : 3 + s.length = ([b] ++ (u16_be n ++ s)).length := by
    simp only [List.length_append, List.length_cons, List.length_nil, length_u16_be]
    omega
  have shape : ([b] ++ (u16_be n ++ s)) ++ (u64_be plen ++ p) =
      b :: (u16_be n ++ (s ++ (u64_be plen ++ p))) := by
    simp [List.append_assoc]
  have h := readU64_at ([b] ++ (u16_be n ++ s)) plen p
  rw [shape] at h
  rw [key, h]

theorem readBundleId_header (b : Nat) (id : BundleIdentifier) :
    readBundleId (b :: id.toList) 1 = .ok id := by
  simpa using readBundleId_at [b] id []

theorem drop_take_payload (b n plen : Nat) (s p : List Nat) :
    ((b :: (u16_be n ++ (s ++ (u64_be plen ++ p)))).drop (3 + s.length + 8)).take p.length
      = p := by
  have shape : b :: (u16_be n ++ (s ++ (u64_be plen ++ p))) =
      (b :: (u16_be n ++ (s ++ u64_be plen))) ++ p := by
    simp [List.append_assoc]
  have hlen : (b :: (u16_be n ++ (s ++ u64_be plen))).length = 3 + s.length + 8 := by
    simp only [List.length_cons, List.length_append, length_u16_be, length_u64_be]
    omega
  rw [shape, List.drop_left' hlen, List.take_length]

theorem parse_buffer_type2 (tail : List Nat) :
    Message.parse_buffer (0x12 :: tail) =
      (readU16 (0x12 :: tail) 1).bind fun eid_length =>
      (readEid (0x12 :: tail) 3 eid_length).bind fun eid =>
      .ok (.Register eid, 3 + eid_length) := by
  rfl

theorem parse_buffer_type7 (tail : List Nat) :
    Message.parse_buffer (0x17 :: tail) =
      (readU16 (0x17 :: tail) 1).bind fun eid_length =>
      (readEid (0x17 :: tail) 3 eid_length).bind fun eid =>
      .ok (.Welcome eid, 3 + eid_length) := by
  rfl

theorem parse_buffer_type3 (tail : List Nat) :
    Message.parse_buffer (0x13 :: tail) =
      (readU16 (0x13 :: tail) 1).bind fun eid_length =>
      (readEid (0x13 :: tail) 3 eid_length).bind fun dest_eid =>
      (readU64 (0x13 :: tail) (3 + eid_length)).bind fun payload_length =>
      if (0x13 :: tail).length < 3 + eid_length + 8 + payload_length then
        .err .UnexpectedEnd
      else
        .ok (.SendBundle dest_eid
              (((0x13 :: tail).drop (3 + eid_length + 8)).take payload_length),
            3 + eid_length + 8 + payload_length) := by
  rfl

theorem parse_buffer_type4 (tail : List Nat) :
    Message.parse_buffer (0x14 :: tail) =
      (readU16 (0x14 :: tail) 1).bind fun eid_length =>
      (readEid (0x14 :: tail) 3 eid_length).bind fun source_eid =>
      (readU64 (0x14 :: tail) (3 + eid_length)).bind fun payload_length =>
      if (0x14 :: tail).length < 3 + eid_length + 8 + payload_length then
        .err .UnexpectedEnd
      else
        .ok (.RecvBundle source_eid
              (((0x14 :: tail).drop (3 + eid_length + 8)).take payload_length),
            3 + eid_length + 8 + payload_length) := by
  rfl

theorem parse_buffer_type5 (tail : List Nat) :
    Message.parse_buffer (0x15 :: tail) =
      (readBundleId (0x15 :: tail) 1).bind fun id => .ok (.SendConfirm id, 9) := by
  rfl

theorem parse_buffer_type6 (tail : List Nat) :
    Message.parse_buffer (0x16 :: tail) =
      (readBundleId (0x16 :: tail) 1).bind fun id => .ok (.CancelBundle id, 9) := by
  rfl

/-- C1 counterexample: the claim quantifies over every constructible `Message`
value, but encoding a constructible BIBE request hits `todo!` and panics, so no
bytes are produced and the round trip fails at `SendBIBE`. -/
theorem C1_roundtrip_cex :
    Message.to_bytes (.SendBIBE [] []) = none ∧
    ¬ ∃ bs, Message.to_bytes (.SendBIBE [] []) = some bs ∧
        Message.parse_buffer bs = .ok (.SendBIBE [] [], bs.length) := by
  refine ⟨rfl, fun hex => ?_⟩
  obtain ⟨bs, hbs, _⟩ := hex
  simp [Message.to_bytes] at hbs

/-- C1 amended: for every well-formed message — not a BIBE variant, wire
strings valid UTF-8 and at most 65535 bytes, payload shorter than 2^64 —
encoding succeeds and parsing the encoding returns the same message having
consumed exactly the encoding's length. -/
theorem C1_roundtrip (m : Message) (h : m.wf = true) :
    ∃ bs, m.to_bytes = some bs ∧ Message.parse_buffer bs = .ok (m, bs.length) := by
  cases m with
  | Ack => exact ⟨[0x10], rfl, by decide⟩
  | Nack => exact ⟨[0x11], rfl, by decide⟩
  | Ping => exact ⟨[0x18], rfl, by decide⟩
  | SendBIBE e p => simp [Message.wf] at h
  | RecvBIBE e p => simp [Message.wf] at h
  | Register s =>
    simp only [Message.wf, Bool.and_eq_true, decide_eq_true_eq] at h
    obtain ⟨hu, hl⟩ := h
    refine ⟨0x12 :: (u16_be s.length ++ s), rfl, ?_⟩
    have hlen : (0x12 :: (u16_be s.length ++ s)).length = 3 + s.length := by
      simp only [List.length_cons, List.length_append, length_u16_be]
      omega
    rw [hlen, parse_buffer_type2, readU16_header]
    have hmod : s.length % 65536 = s.length := Nat.mod_eq_of_lt (by omega)
    have hre := readEid_header 0x12 s.length s [] hu
    rw [List.append_nil] at hre
    simp only [PResult.bind_ok, hmod, hre]
  | Welcome s =>
    simp only [Message.wf, Bool.and_eq_true, decide_eq_true_eq] at h
    obtain ⟨hu, hl⟩ := h
    refine ⟨0x17 :: (u16_be s.length ++ s), rfl, ?_⟩
    have hlen : (0x17 :: (u16_be s.length ++ s)).length = 3 + s.length := by
      simp only [List.length_cons, List.length_append, length_u16_be]
      omega
    rw [hlen, parse_buffer_type7, readU16_header]
    have hmod : s.length % 65536 = s.length := Nat.mod_eq_of_lt (by omega)
    have hre := readEid_header 0x17 s.length s [] hu
    rw [List.append_nil] at hre
    simp only [PResult.bind_ok, hmod, hre]
  | SendConfirm id =>
    refine ⟨0x15 :: id.toList, rfl, ?_⟩
    rw [parse_buffer_type5, readBundleId_header]
    cases id
    simp [BundleIdentifier.toList]
  | CancelBundle id =>
    refine ⟨0x16 :: id.toList, rfl, ?_⟩
    rw [parse_buffer_type6, readBundleId_header]
    cases id
    simp [BundleIdentifier.toList]
  | SendBundle e p =>
    simp only [Message.wf, Bool.and_eq_true, decide_eq_true_eq] at h
    obtain ⟨⟨hu, hl⟩, hp⟩ := h
    refine ⟨0x13 :: (u16_be e.length ++ (e ++ (u64_be p.length ++ p))), ?_, ?_⟩
    · simp [Message.to_bytes, append_bytes, append_string, List.append_assoc]
    · have hlen : (0x13 :: (u16_be e.length ++ (e ++ (u64_be p.length ++ p)))).length =
          3 + e.length + 8 + p.length := by
        simp only [List.length_cons, List.length_append, length_u16_be, length_u64_be]
        omega
      rw [hlen, parse_buffer_type3, readU16_header]
      have hmod : e.length % 65536 = e.length := Nat.mod_eq_of_lt (by omega)
      have hpmod : p.length % 18446744073709551616 = p.length := Nat.mod_eq_of_lt (by omega)
      have hre := readEid_header 0x13 e.length e (u64_be p.length ++ p) hu
      simp only [PResult.bind_ok, hmod, hre, readU64_mid, hpmod, hlen]
      rw [if_neg (by omega), drop_take_payload]
  | RecvBundle e p =>
    simp only [Message.wf, Bool.and_eq_true, decide_eq_true_eq] at h
    obtain ⟨⟨hu, hl⟩, hp⟩ := h
    refine ⟨0x14 :: (u16_be e.length ++ (e ++ (u64_be p.length ++ p))), ?_, ?_⟩
    · simp [Message.to_bytes, append_bytes, append_string, List.append_assoc]
    · have hlen : (0x14 :: (u16_be e.length ++ (e ++ (u64_be p.length ++ p)))).length =
          3 + e.length + 8 + p.length := by
        simp only [List.length_cons, List.length_append, length_u16_be, length_u64_be]
        omega
      rw [hlen, parse_buffer_type4, readU16_header]
      have hmod : e.length % 65536 = e.length := Nat.mod_eq_of_lt (by omega)
      have hpmod : p.length % 18446744073709551616 = p.length := Nat.mod_eq_of_lt (by omega)
      have hre := readEid_header 0x14 e.length e (u64_be p.length ++ p) hu
      simp only [PResult.bind_ok, hmod, hre, readU64_mid, hpmod, hlen]
      rw [if_neg (by omega), drop_take_payload]

theorem C1_roundtrip_witness :
    ∃ bs, (Message.SendBundle [97] [7, 8]).to_bytes = some bs ∧
      Message.parse_buffer bs = .ok (.SendBundle [97] [7, 8], bs.length) :=
  C1_roundtrip (.SendBundle [97] [7, 8]) (by decide)

end Ud3tn
